import Mathlib

/-!
Shallow embedding of the snake game in `src/js.js`.

JavaScript numbers used by the game are integers throughout (grid
coordinates, settings, timer ids), so they are modelled as `Int` (or `Nat`
where the source can only ever produce naturals, such as the score counter
after `score.drop()` and the count of live `setInterval` timers).

Randomness (`Math.random`) is modelled by an explicit list of drawn points:
each iteration of the rejection loop in `game.getRandomFreeCoordinates`
consumes one drawn point; `none` means the supplied draw sequence was
exhausted before a free cell was found (the real loop would still be
running). DOM rendering (`map`, `score.render`, `setPlayButton`) has no
effect on the game state and is not modelled.
-/

/-- A grid point `{x, y}`. -/
structure Point where
  x : Int
  y : Int
deriving DecidableEq

instance : Inhabited Point := ⟨⟨0, 0⟩⟩

/-- The four direction strings 'up' / 'right' / 'down' / 'left'. -/
inductive Direction where
  | up
  | right
  | down
  | left
deriving DecidableEq

/-- The `settings` DTO: rowsCount, colsCount, speed, winFoodCount. -/
structure Settings where
  rowsCount : Int
  colsCount : Int
  speed : Int
  winFoodCount : Int
deriving DecidableEq

/-- The `{isValid, errors}` DTO returned by `config.validate()`. -/
structure ValidationResult where
  isValid : Bool
  errors : List String
deriving DecidableEq

/-- Error message pushed when rowsCount is out of range. -/
def rowsCountError : String :=
  "Неверные настройки, значение rowsCount должно быть в диапазоне [10, 30]."

/-- Error message pushed when colsCount is out of range. -/
def colsCountError : String :=
  "Неверные настройки, значение colsCount должно быть в диапазоне [10, 30]."

/-- Error message pushed when speed is out of range. -/
def speedError : String :=
  "Неверные настройки, значение speed должно быть в диапазоне [1, 10]."

/-- Error message pushed when winFoodCount is out of range. -/
def winFoodCountError : String :=
  "Неверные настройки, значение winLength должно быть в диапазоне [5, 50]."

/-- `config.validate()`: four independent range checks, each appending its
error message and clearing `isValid`; no short-circuiting. -/
def Config.validate (s : Settings) : ValidationResult :=
  let result : ValidationResult := { isValid := true, errors := [] }
  let result :=
    if s.rowsCount < 10 ∨ s.rowsCount > 30 then
      { isValid := false, errors := result.errors ++ [rowsCountError] }
    else result
  let result :=
    if s.colsCount < 10 ∨ s.colsCount > 30 then
      { isValid := false, errors := result.errors ++ [colsCountError] }
    else result
  let result :=
    if s.speed < 1 ∨ s.speed > 10 then
      { isValid := false, errors := result.errors ++ [speedError] }
    else result
  let result :=
    if s.winFoodCount < 5 ∨ s.winFoodCount > 50 then
      { isValid := false, errors := result.errors ++ [winFoodCountError] }
    else result
  result

/-- The `snake` object: body (head first), direction, lastStepDirection,
and the maximal coordinates of the board. -/
structure Snake where
  body : List Point
  direction : Direction
  lastStepDirection : Direction
  maxX : Int
  maxY : Int
deriving DecidableEq

/-- `snake.init(startBody, direction, maxX, maxY)`. -/
def Snake.init (startBody : List Point) (direction : Direction)
    (maxX maxY : Int) : Snake :=
  { body := startBody
    direction := direction
    lastStepDirection := direction
    maxX := maxX
    maxY := maxY }

/-- `snake.isOnPoint(point)`: some body segment has the same coordinates. -/
def Snake.isOnPoint (s : Snake) (point : Point) : Bool :=
  s.body.any fun snakePoint => snakePoint.x == point.x && snakePoint.y == point.y

/-- `snake.getNextStepHeadPoint()`: the head moved one cell in the current
direction, wrapping toroidally at `0` and `maxX`/`maxY`.  `body[0]` is read
through `headI` (the body is nonempty in every reachable state). -/
def Snake.getNextStepHeadPoint (s : Snake) : Point :=
  let firstPoint := s.body.headI
  match s.direction with
  | .up => ⟨firstPoint.x, if firstPoint.y ≠ 0 then firstPoint.y - 1 else s.maxY⟩
  | .right => ⟨if firstPoint.x ≠ s.maxX then firstPoint.x + 1 else 0, firstPoint.y⟩
  | .down => ⟨firstPoint.x, if firstPoint.y ≠ s.maxY then firstPoint.y + 1 else 0⟩
  | .left => ⟨if firstPoint.x ≠ 0 then firstPoint.x - 1 else s.maxX, firstPoint.y⟩

/-- `snake.makeStep()`: record the direction just used, unshift the next
head point, pop the tail. -/
def Snake.makeStep (s : Snake) : Snake :=
  { s with
    lastStepDirection := s.direction
    body := (s.getNextStepHeadPoint :: s.body).dropLast }

/-- `snake.growUp()`: push a clone of the last body point.  (`getLastD`'s
default is never used: the body is nonempty in every reachable state.) -/
def Snake.growUp (s : Snake) : Snake :=
  { s with body := s.body ++ [s.body.getLastD ⟨0, 0⟩] }

/-- `snake.setDirection(direction)`. -/
def Snake.setDirection (s : Snake) (direction : Direction) : Snake :=
  { s with direction := direction }

/-- `food.isOnPoint(point)`: coordinate-wise equality with the food. -/
def Food.isOnPoint (f : Point) (point : Point) : Bool :=
  f.x == point.x && f.y == point.y

/-- The `status.condition` strings 'playing' / 'stopped' / 'finished'. -/
inductive GameCondition where
  | playing
  | stopped
  | finished
deriving DecidableEq

/-- The mutable state of the `game` object (plus `config.settings`,
`snake`, `food`, `status.condition`, `score.count`).  `timers` is the list
of ids of currently live `setInterval` timers and `tickInterval` the last
handle stored by `play()`; `nextTimerId` supplies fresh ids. -/
structure GameState where
  settings : Settings
  snake : Snake
  food : Point
  condition : GameCondition
  score : Nat
  timers : List Nat
  tickInterval : Option Nat
  nextTimerId : Nat
deriving DecidableEq

/-- `clearInterval(handle)`: the timer whose id equals the handle dies; a
stale or null (`none`) handle cancels nothing. -/
def clearInterval (timers : List Nat) (handle : Option Nat) : List Nat :=
  timers.filter fun i => !(handle == some i)

/-- The body of the `while (true)` rejection loop in
`game.getRandomFreeCoordinates`, one drawn point per iteration. -/
def randomFreeLoop (exclude : List Point) : List Point → Option Point
  | [] => none
  | rndPoint :: rest =>
    if exclude.any (fun exPoint => rndPoint.x == exPoint.x && rndPoint.y == exPoint.y) then
      randomFreeLoop exclude rest
    else
      some rndPoint

/-- `game.getRandomFreeCoordinates()`: builds
`exclude = [food.getCoordinates(), ...snake.getBody()]` and rejection-samples
against it. -/
def Game.getRandomFreeCoordinates (foodCoords : Point) (snakeBody : List Point)
    (draws : List Point) : Option Point :=
  randomFreeLoop (foodCoords :: snakeBody) draws

/-- `game.canSetDirection(direction)`; `none` stands for the empty string
returned by `getDirectionByCode` for an unrecognized key. -/
def Game.canSetDirection (direction : Option Direction)
    (lastStepDirection : Direction) : Bool :=
  (direction == some Direction.up && lastStepDirection != Direction.down) ||
  (direction == some Direction.right && lastStepDirection != Direction.left) ||
  (direction == some Direction.down && lastStepDirection != Direction.up) ||
  (direction == some Direction.left && lastStepDirection != Direction.right)

/-- `game.getDirectionByCode(code)`; `none` models the `''` default. -/
def Game.getDirectionByCode (code : String) : Option Direction :=
  if code == "KeyW" || code == "ArrowUp" then some .up
  else if code == "KeyD" || code == "ArrowRight" then some .right
  else if code == "KeyS" || code == "ArrowDown" then some .down
  else if code == "KeyA" || code == "ArrowLeft" then some .left
  else none

/-- `game.isGameWon()`: body length strictly greater than winFoodCount. -/
def Game.isGameWon (g : GameState) : Bool :=
  (g.snake.body.length : Int) > g.settings.winFoodCount

/-- `game.canMakeStep()`: the prospective head hits no body segment. -/
def Game.canMakeStep (g : GameState) : Bool :=
  !(g.snake.isOnPoint g.snake.getNextStepHeadPoint)

/-- `game.play()`: set status playing and start a fresh interval timer,
overwriting `tickInterval` with the new handle. -/
def Game.play (g : GameState) : GameState :=
  { g with
    condition := .playing
    timers := g.nextTimerId :: g.timers
    tickInterval := some g.nextTimerId
    nextTimerId := g.nextTimerId + 1 }

/-- `game.stop()`: set status stopped and `clearInterval(tickInterval)`. -/
def Game.stop (g : GameState) : GameState :=
  { g with
    condition := .stopped
    timers := clearInterval g.timers g.tickInterval }

/-- `game.finish()`: set status finished and `clearInterval(tickInterval)`. -/
def Game.finish (g : GameState) : GameState :=
  { g with
    condition := .finished
    timers := clearInterval g.timers g.tickInterval }

/-- `game.tickHandler()`, with the random draws made explicit.  `none`
means the food-placement loop exhausted the supplied draws. -/
def Game.tickHandler (g : GameState) (draws : List Point) : Option GameState :=
  if !(Game.canMakeStep g) then
    some (Game.finish g)
  else if Food.isOnPoint g.food g.snake.getNextStepHeadPoint then
    let grown := g.snake.growUp
    match Game.getRandomFreeCoordinates g.food grown.body draws with
    | none => none
    | some newFood =>
      let g2 : GameState := { g with snake := grown, score := g.score + 1, food := newFood }
      let g3 := if Game.isGameWon g2 then Game.finish g2 else g2
      some { g3 with snake := g3.snake.makeStep }
  else
    some { g with snake := g.snake.makeStep }

/-- `game.getStartSnakeBody()`: single segment at the board center
(`Int` division agrees with `Math.floor` on the validated, nonnegative
settings). -/
def Game.getStartSnakeBody (s : Settings) : List Point :=
  [⟨s.colsCount / 2, s.rowsCount / 2⟩]

/-- `game.reset()`: stop, drop the score, reinitialize the snake, then
place food (the exclude set is the stale food plus the new body). -/
def Game.reset (g : GameState) (draws : List Point) : Option GameState :=
  let g1 := Game.stop g
  let g2 : GameState := { g1 with score := 0 }
  let g3 : GameState :=
    { g2 with
      snake := Snake.init (Game.getStartSnakeBody g2.settings) .up
        (g2.settings.colsCount - 1) (g2.settings.rowsCount - 1) }
  match Game.getRandomFreeCoordinates g3.food g3.snake.body draws with
  | none => none
  | some p => some { g3 with food := p }

/-- `game.playClickHandler()`: stop when playing, play when stopped,
otherwise (finished) do nothing. -/
def Game.playClickHandler (g : GameState) : GameState :=
  if g.condition = .playing then Game.stop g
  else if g.condition = .stopped then Game.play g
  else g

/-- `game.keyDownHandler(event)`: ignore keys unless playing; map the key
code to a direction and apply it when `canSetDirection` allows. -/
def Game.keyDownHandler (g : GameState) (code : String) : GameState :=
  if g.condition = .playing then
    let direction := Game.getDirectionByCode code
    if Game.canSetDirection direction g.snake.lastStepDirection then
      match direction with
      | some d => { g with snake := g.snake.setDirection d }
      | none => g
    else g
  else g

/-- `game.init(userSettings)`: validate, then reset from the fresh module
state (no live timers, `tickInterval` null).  `initialFood` stands for the
initial `{x: null, y: null}` food object, whose coordinates the JS `===`
comparisons never match. -/
def Game.init (userSettings : Settings) (initialFood : Point)
    (draws : List Point) : Option GameState :=
  if (Config.validate userSettings).isValid then
    Game.reset
      { settings := userSettings
        snake := Snake.init [] .up 0 0
        food := initialFood
        condition := .stopped
        score := 0
        timers := []
        tickInterval := none
        nextTimerId := 0 } draws
  else none

/-- One externally triggered transition of the game: a timer tick (possible
only while some interval timer is live), a play-button click, a new-game
click, or a key press. -/
inductive Step : GameState → GameState → Prop where
  | tick {g g' : GameState} (draws : List Point) :
      g.timers ≠ [] → Game.tickHandler g draws = some g' → Step g g'
  | playClick {g : GameState} : Step g (Game.playClickHandler g)
  | newGameClick {g g' : GameState} (draws : List Point) :
      Game.reset g draws = some g' → Step g g'
  | keyDown {g : GameState} (code : String) : Step g (Game.keyDownHandler g code)

/-- States reachable from `game.init` by any sequence of events. -/
inductive Reachable : GameState → Prop where
  | init (userSettings : Settings) (initialFood : Point) (draws : List Point)
      (g : GameState) :
      Game.init userSettings initialFood draws = some g → Reachable g
  | step (g g' : GameState) : Reachable g → Step g g' → Reachable g'

/-! ## Helper lemmas -/

/-- Closed form of `Config.validate`: each of the four checks contributes
its own message independently. -/
theorem validate_eq (s : Settings) :
    Config.validate s =
      ⟨!(decide (s.rowsCount < 10 ∨ s.rowsCount > 30) ||
         decide (s.colsCount < 10 ∨ s.colsCount > 30) ||
         decide (s.speed < 1 ∨ s.speed > 10) ||
         decide (s.winFoodCount < 5 ∨ s.winFoodCount > 50)),
       (if s.rowsCount < 10 ∨ s.rowsCount > 30 then [rowsCountError] else []) ++
       (if s.colsCount < 10 ∨ s.colsCount > 30 then [colsCountError] else []) ++
       (if s.speed < 1 ∨ s.speed > 10 then [speedError] else []) ++
       (if s.winFoodCount < 5 ∨ s.winFoodCount > 50 then [winFoodCountError] else [])⟩ := by
  by_cases h1 : s.rowsCount < 10 ∨ s.rowsCount > 30 <;>
    by_cases h2 : s.colsCount < 10 ∨ s.colsCount > 30 <;>
      by_cases h3 : s.speed < 1 ∨ s.speed > 10 <;>
        by_cases h4 : s.winFoodCount < 5 ∨ s.winFoodCount > 50 <;>
          simp [Config.validate, h1, h2, h3, h4]

/-- Whatever point the rejection loop returns was not in its exclude set. -/
theorem randomFreeLoop_not_excluded (exclude : List Point) :
    ∀ (draws : List Point) (r : Point), randomFreeLoop exclude draws = some r →
      exclude.any (fun exPoint => r.x == exPoint.x && r.y == exPoint.y) = false := by
  intro draws
  induction draws with
  | nil => intro r h; simp [randomFreeLoop] at h
  | cons a rest ih =>
    intro r h
    simp only [randomFreeLoop] at h
    split at h
    · exact ih r h
    · cases h
      simp_all

/-! ## Claim theorems -/

/-- C5: the next-step head point wraps toroidally on both axes — moving
right from `x = maxX` gives `x = 0`, left from `x = 0` gives `x = maxX`,
up from `y = 0` gives `y = maxY`, down from `y = maxY` gives `y = 0`; away
from the wrapping edge the moved coordinate changes by exactly 1 and the
other coordinate is unchanged. -/
theorem C5_toroidal_wraparound (s : Snake)
    (hx0 : 0 ≤ s.body.headI.x) (hx1 : s.body.headI.x ≤ s.maxX)
    (hy0 : 0 ≤ s.body.headI.y) (hy1 : s.body.headI.y ≤ s.maxY) :
    (s.direction = .right → s.body.headI.x = s.maxX →
      s.getNextStepHeadPoint = ⟨0, s.body.headI.y⟩) ∧
    (s.direction = .right → s.body.headI.x ≠ s.maxX →
      s.getNextStepHeadPoint = ⟨s.body.headI.x + 1, s.body.headI.y⟩) ∧
    (s.direction = .left → s.body.headI.x = 0 →
      s.getNextStepHeadPoint = ⟨s.maxX, s.body.headI.y⟩) ∧
    (s.direction = .left → s.body.headI.x ≠ 0 →
      s.getNextStepHeadPoint = ⟨s.body.headI.x - 1, s.body.headI.y⟩) ∧
    (s.direction = .up → s.body.headI.y = 0 →
      s.getNextStepHeadPoint = ⟨s.body.headI.x, s.maxY⟩) ∧
    (s.direction = .up → s.body.headI.y ≠ 0 →
      s.getNextStepHeadPoint = ⟨s.body.headI.x, s.body.headI.y - 1⟩) ∧
    (s.direction = .down → s.body.headI.y = s.maxY →
      s.getNextStepHeadPoint = ⟨s.body.headI.x, 0⟩) ∧
    (s.direction = .down → s.body.headI.y ≠ s.maxY →
      s.getNextStepHeadPoint = ⟨s.body.headI.x, s.body.headI.y + 1⟩) := by
  refine ⟨?_, ?_, ?_, ?_, ?_, ?_, ?_, ?_⟩ <;>
    intro hd h <;> simp [Snake.getNextStepHeadPoint, hd, h]

/-- Witness for C5: a head at `(maxX, 3)` moving right wraps to `(0, 3)`. -/
theorem C5_toroidal_wraparound_witness :
    Snake.getNextStepHeadPoint ⟨[⟨20, 3⟩], .right, .right, 20, 20⟩ = ⟨0, 3⟩ :=
  (C5_toroidal_wraparound ⟨[⟨20, 3⟩], .right, .right, 20, 20⟩
    (by decide) (by decide) (by decide) (by decide)).1 rfl rfl

/-- C7: `canSetDirection(d)` is false exactly when `d` is the direct 180°
reversal of `lastStepDirection`; in particular with `lastStepDirection =
up`, down is rejected and up, left, right are allowed. -/
theorem C7_reversal_rejected_only (lastStepDirection d : Direction) :
    (Game.canSetDirection (some d) lastStepDirection = false ↔
      (d = .up ∧ lastStepDirection = .down) ∨
      (d = .right ∧ lastStepDirection = .left) ∨
      (d = .down ∧ lastStepDirection = .up) ∨
      (d = .left ∧ lastStepDirection = .right)) ∧
    Game.canSetDirection (some Direction.down) Direction.up = false ∧
    Game.canSetDirection (some Direction.up) Direction.up = true ∧
    Game.canSetDirection (some Direction.left) Direction.up = true ∧
    Game.canSetDirection (some Direction.right) Direction.up = true := by
  cases lastStepDirection <;> cases d <;> decide

/-- C9: whenever the random free-coordinate search returns, the returned
point coincides with no point of the snake body it was given. -/
theorem C9_placement_avoids_body (foodCoords : Point) (snakeBody draws : List Point)
    (r : Point)
    (h : Game.getRandomFreeCoordinates foodCoords snakeBody draws = some r) :
    snakeBody.any (fun exPoint => r.x == exPoint.x && r.y == exPoint.y) = false := by
  have hall := randomFreeLoop_not_excluded (foodCoords :: snakeBody) draws r h
  simp only [List.any_cons, Bool.or_eq_false_iff] at hall
  exact hall.2

/-- Witness for C9: with body `[(1,1)]` and food `(0,0)`, draws
`[(1,1), (2,2)]` return `(2,2)`, which is off the body. -/
theorem C9_placement_avoids_body_witness :
    Game.getRandomFreeCoordinates ⟨0, 0⟩ [⟨1, 1⟩] [⟨1, 1⟩, ⟨2, 2⟩] = some ⟨2, 2⟩ ∧
    ([⟨1, 1⟩] : List Point).any
      (fun exPoint => (2 : Int) == exPoint.x && (2 : Int) == exPoint.y) = false :=
  ⟨by decide, C9_placement_avoids_body ⟨0, 0⟩ [⟨1, 1⟩] [⟨1, 1⟩, ⟨2, 2⟩] ⟨2, 2⟩ (by decide)⟩

/-- C8: `validate()` checks the four ranges independently: a fully valid
config yields `{isValid: true, errors: []}`; each out-of-range setting
contributes exactly one occurrence of its own message; and `rowsCount = 5`
together with `speed = 20` (others in range) yields exactly two errors and
`isValid = false`. -/
theorem C8_validate_accumulates (s : Settings) :
    ((10 ≤ s.rowsCount ∧ s.rowsCount ≤ 30) → (10 ≤ s.colsCount ∧ s.colsCount ≤ 30) →
      (1 ≤ s.speed ∧ s.speed ≤ 10) → (5 ≤ s.winFoodCount ∧ s.winFoodCount ≤ 50) →
      Config.validate s = ⟨true, []⟩) ∧
    ((Config.validate s).errors.count rowsCountError =
      if s.rowsCount < 10 ∨ s.rowsCount > 30 then 1 else 0) ∧
    ((Config.validate s).errors.count colsCountError =
      if s.colsCount < 10 ∨ s.colsCount > 30 then 1 else 0) ∧
    ((Config.validate s).errors.count speedError =
      if s.speed < 1 ∨ s.speed > 10 then 1 else 0) ∧
    ((Config.validate s).errors.count winFoodCountError =
      if s.winFoodCount < 5 ∨ s.winFoodCount > 50 then 1 else 0) ∧
    (s.rowsCount = 5 → s.speed = 20 → (10 ≤ s.colsCount ∧ s.colsCount ≤ 30) →
      (5 ≤ s.winFoodCount ∧ s.winFoodCount ≤ 50) →
      (Config.validate s).errors.length = 2 ∧ (Config.validate s).isValid = false) := by
  refine ⟨?_, ?_, ?_, ?_, ?_, ?_⟩
  · rintro ⟨a1, a2⟩ ⟨b1, b2⟩ ⟨c1, c2⟩ ⟨d1, d2⟩
    have h1 : ¬(s.rowsCount < 10 ∨ s.rowsCount > 30) := by omega
    have h2 : ¬(s.colsCount < 10 ∨ s.colsCount > 30) := by omega
    have h3 : ¬(s.speed < 1 ∨ s.speed > 10) := by omega
    have h4 : ¬(s.winFoodCount < 5 ∨ s.winFoodCount > 50) := by omega
    rw [validate_eq]
    simp [h1, h2, h3, h4]
  · rw [validate_eq]
    by_cases h1 : s.rowsCount < 10 ∨ s.rowsCount > 30 <;>
      by_cases h2 : s.colsCount < 10 ∨ s.colsCount > 30 <;>
        by_cases h3 : s.speed < 1 ∨ s.speed > 10 <;>
          by_cases h4 : s.winFoodCount < 5 ∨ s.winFoodCount > 50 <;>
            simp [h1, h2, h3, h4] <;> decide
  · rw [validate_eq]
    by_cases h1 : s.rowsCount < 10 ∨ s.rowsCount > 30 <;>
      by_cases h2 : s.colsCount < 10 ∨ s.colsCount > 30 <;>
        by_cases h3 : s.speed < 1 ∨ s.speed > 10 <;>
          by_cases h4 : s.winFoodCount < 5 ∨ s.winFoodCount > 50 <;>
            simp [h1, h2, h3, h4] <;> decide
  · rw [validate_eq]
    by_cases h1 : s.rowsCount < 10 ∨ s.rowsCount > 30 <;>
      by_cases h2 : s.colsCount < 10 ∨ s.colsCount > 30 <;>
        by_cases h3 : s.speed < 1 ∨ s.speed > 10 <;>
          by_cases h4 : s.winFoodCount < 5 ∨ s.winFoodCount > 50 <;>
            simp [h1, h2, h3, h4] <;> decide
  · rw [validate_eq]
    by_cases h1 : s.rowsCount < 10 ∨ s.rowsCount > 30 <;>
      by_cases h2 : s.colsCount < 10 ∨ s.colsCount > 30 <;>
        by_cases h3 : s.speed < 1 ∨ s.speed > 10 <;>
          by_cases h4 : s.winFoodCount < 5 ∨ s.winFoodCount > 50 <;>
            simp [h1, h2, h3, h4] <;> decide
  · rintro ha hc ⟨b1, b2⟩ ⟨d1, d2⟩
    have h1 : s.rowsCount < 10 ∨ s.rowsCount > 30 := by omega
    have h2 : ¬(s.colsCount < 10 ∨ s.colsCount > 30) := by omega
    have h3 : s.speed < 1 ∨ s.speed > 10 := by omega
    have h4 : ¬(s.winFoodCount < 5 ∨ s.winFoodCount > 50) := by omega
    rw [validate_eq]
    simp [h1, h2, h3, h4]

/-- Witness for C8: the default-style config `(21, 21, 2, 50)` validates
cleanly, and `(5, 21, 20, 50)` yields exactly two errors. -/
theorem C8_validate_accumulates_witness :
    Config.validate ⟨21, 21, 2, 50⟩ = ⟨true, []⟩ ∧
    (Config.validate ⟨5, 21, 20, 50⟩).errors.length = 2 ∧
    (Config.validate ⟨5, 21, 20, 50⟩).isValid = false :=
  ⟨(C8_validate_accumulates ⟨21, 21, 2, 50⟩).1
      (by decide) (by decide) (by decide) (by decide),
   ((C8_validate_accumulates ⟨5, 21, 20, 50⟩).2.2.2.2.2
      rfl rfl (by decide) (by decide)).1,
   ((C8_validate_accumulates ⟨5, 21, 20, 50⟩).2.2.2.2.2
      rfl rfl (by decide) (by decide)).2⟩

/-- On a blocked step, the tick only calls `finish()`. -/
theorem tickHandler_eq_of_collision (g : GameState) (draws : List Point)
    (h : Game.canMakeStep g = false) :
    Game.tickHandler g draws = some (Game.finish g) := by
  simp [Game.tickHandler, h]

/-- On a tick with no food on the prospective head, the snake just steps. -/
theorem tickHandler_eq_of_no_food (g : GameState) (draws : List Point)
    (hstep : Game.canMakeStep g = true)
    (heat : Food.isOnPoint g.food g.snake.getNextStepHeadPoint = false) :
    Game.tickHandler g draws = some { g with snake := g.snake.makeStep } := by
  simp [Game.tickHandler, hstep, heat]

/-- Eating tick, winning case: grow, score, place food, finish, step. -/
theorem tickHandler_eats_won (g : GameState) (draws : List Point) (newFood : Point)
    (hstep : Game.canMakeStep g = true)
    (heat : Food.isOnPoint g.food g.snake.getNextStepHeadPoint = true)
    (hdraw : Game.getRandomFreeCoordinates g.food g.snake.growUp.body draws = some newFood)
    (hw : (g.snake.growUp.body.length : Int) > g.settings.winFoodCount) :
    Game.tickHandler g draws = some
      { settings := g.settings
        snake := g.snake.growUp.makeStep
        food := newFood
        condition := .finished
        score := g.score + 1
        timers := clearInterval g.timers g.tickInterval
        tickInterval := g.tickInterval
        nextTimerId := g.nextTimerId } := by
  have hw' : Game.isGameWon
      { g with snake := g.snake.growUp, score := g.score + 1, food := newFood } = true := by
    simpa [Game.isGameWon] using hw
  simp [Game.tickHandler, hstep, heat, hdraw, hw', Game.finish]

/-- Eating tick, non-winning case: grow, score, place food, step. -/
theorem tickHandler_eats_not_won (g : GameState) (draws : List Point) (newFood : Point)
    (hstep : Game.canMakeStep g = true)
    (heat : Food.isOnPoint g.food g.snake.getNextStepHeadPoint = true)
    (hdraw : Game.getRandomFreeCoordinates g.food g.snake.growUp.body draws = some newFood)
    (hw : ¬((g.snake.growUp.body.length : Int) > g.settings.winFoodCount)) :
    Game.tickHandler g draws = some
      { g with
        snake := g.snake.growUp.makeStep
        food := newFood
        score := g.score + 1 } := by
  have hw' : Game.isGameWon
      { g with snake := g.snake.growUp, score := g.score + 1, food := newFood } = false := by
    simpa [Game.isGameWon] using hw
  simp [Game.tickHandler, hstep, heat, hdraw, hw']

/-- C3: a tick whose prospective head point lies on the current body only
calls `finish()`: the body, food and score are untouched and the status
becomes finished. -/
theorem C3_self_collision_frame (g : GameState) (draws : List Point)
    (h : Game.canMakeStep g = false) :
    Game.tickHandler g draws = some (Game.finish g) ∧
    (Game.finish g).snake = g.snake ∧
    (Game.finish g).food = g.food ∧
    (Game.finish g).score = g.score ∧
    (Game.finish g).condition = GameCondition.finished :=
  ⟨tickHandler_eq_of_collision g draws h, rfl, rfl, rfl, rfl⟩

/-- Concrete state for the C3 witness: a length-4 snake about to bite its
own body segment `(1,2)`. -/
def gC3 : GameState :=
  { settings := ⟨21, 21, 2, 50⟩
    snake := ⟨[⟨1, 1⟩, ⟨1, 2⟩, ⟨2, 2⟩, ⟨2, 1⟩], .down, .down, 20, 20⟩
    food := ⟨9, 9⟩
    condition := .playing
    score := 3
    timers := [0]
    tickInterval := some 0
    nextTimerId := 1 }

/-- Witness for C3 at the concrete colliding state `gC3`. -/
theorem C3_self_collision_frame_witness :
    Game.tickHandler gC3 [] = some (Game.finish gC3) ∧
    (Game.finish gC3).snake = gC3.snake ∧
    (Game.finish gC3).food = gC3.food ∧
    (Game.finish gC3).score = gC3.score ∧
    (Game.finish gC3).condition = GameCondition.finished :=
  C3_self_collision_frame gC3 [] (by decide)

/-- C2: on an eating tick the game transitions to finished exactly when the
post-growth body length exceeds winFoodCount (with winFoodCount = 5,
growing to length 6 finishes), and a non-eating tick never performs the win
check: the status stays playing. -/
theorem C2_win_exactly_on_eating (g : GameState)
    (hcond : g.condition = GameCondition.playing)
    (hstep : Game.canMakeStep g = true) :
    (∀ (draws : List Point) (g' : GameState),
      Food.isOnPoint g.food g.snake.getNextStepHeadPoint = true →
      Game.tickHandler g draws = some g' →
      ((g'.condition = GameCondition.finished ↔
        (g.snake.growUp.body.length : Int) > g.settings.winFoodCount) ∧
       (g.settings.winFoodCount = 5 → g.snake.growUp.body.length = 6 →
        g'.condition = GameCondition.finished))) ∧
    (∀ (draws : List Point) (g' : GameState),
      Food.isOnPoint g.food g.snake.getNextStepHeadPoint = false →
      Game.tickHandler g draws = some g' →
      g'.condition = GameCondition.playing) := by
  constructor
  · intro draws g' heat ht
    cases hdraw : Game.getRandomFreeCoordinates g.food g.snake.growUp.body draws with
    | none =>
      rw [Game.tickHandler] at ht
      simp [hstep, heat, hdraw] at ht
    | some newFood =>
      by_cases hw : (g.snake.growUp.body.length : Int) > g.settings.winFoodCount
      · rw [tickHandler_eats_won g draws newFood hstep heat hdraw hw] at ht
        cases ht
        exact ⟨by simpa using hw, fun _ _ => rfl⟩
      · rw [tickHandler_eats_not_won g draws newFood hstep heat hdraw hw] at ht
        cases ht
        constructor
        · simp only [hcond]
          exact ⟨fun h => absurd h (by simp), fun h => absurd h hw⟩
        · intro h5 h6
          exact absurd (by rw [h6, h5]; norm_num) hw
  · intro draws g' heat ht
    rw [tickHandler_eq_of_no_food g draws hstep heat] at ht
    cases ht
    exact hcond

/-- Concrete eating-and-winning state for the C2 witness: winFoodCount 5,
body length 5 about to eat the food at `(10,9)`. -/
def gC2 : GameState :=
  { settings := ⟨21, 21, 2, 5⟩
    snake := ⟨[⟨10, 10⟩, ⟨10, 11⟩, ⟨11, 11⟩, ⟨12, 11⟩, ⟨12, 12⟩], .up, .up, 20, 20⟩
    food := ⟨10, 9⟩
    condition := .playing
    score := 4
    timers := [0]
    tickInterval := some 0
    nextTimerId := 1 }

/-- The state `gC2` reaches after one tick with draw `(0,0)`. -/
def gC2' : GameState :=
  { settings := ⟨21, 21, 2, 5⟩
    snake := ⟨[⟨10, 9⟩, ⟨10, 10⟩, ⟨10, 11⟩, ⟨11, 11⟩, ⟨12, 11⟩, ⟨12, 12⟩], .up, .up, 20, 20⟩
    food := ⟨0, 0⟩
    condition := .finished
    score := 5
    timers := []
    tickInterval := some 0
    nextTimerId := 1 }

/-- Witness for C2: eating the fifth food with winFoodCount = 5 grows the
snake to length 6 and finishes the game. -/
theorem C2_win_exactly_on_eating_witness :
    Game.tickHandler gC2 [⟨0, 0⟩] = some gC2' ∧
    gC2'.condition = GameCondition.finished :=
  ⟨by decide,
   ((C2_win_exactly_on_eating gC2 rfl (by decide)).1 [⟨0, 0⟩] gC2'
      (by decide) (by decide)).2 (by decide) (by decide)⟩

/-- C6: a length-1 snake whose next-step head cell holds the food reaches,
in a single tick, body length 2 with score 1 and its head on the former
food cell: growth precedes the unconditional `makeStep()` of the same
tick. -/
theorem C6_growth_timing (g : GameState) (c p : Point) (draws : List Point)
    (hbody : g.snake.body = [c])
    (hfood : g.food = g.snake.getNextStepHeadPoint)
    (hstep : Game.canMakeStep g = true)
    (hscore : g.score = 0)
    (hdraw : Game.getRandomFreeCoordinates g.food g.snake.growUp.body draws = some p) :
    ∃ g', Game.tickHandler g draws = some g' ∧
      g'.snake.body.length = 2 ∧ g'.score = 1 ∧ g'.snake.body.headI = g.food := by
  have heat : Food.isOnPoint g.food g.snake.getNextStepHeadPoint = true := by
    rw [hfood]; simp [Food.isOnPoint]
  have hgrow : g.snake.growUp.body = [c, c] := by
    simp [Snake.growUp, hbody]
  have hnext : g.snake.growUp.getNextStepHeadPoint = g.snake.getNextStepHeadPoint := by
    simp [Snake.getNextStepHeadPoint, Snake.growUp, hbody]
  have hmade : g.snake.growUp.makeStep.body = [g.snake.getNextStepHeadPoint, c] := by
    simp [Snake.makeStep, hgrow, hnext]
  by_cases hw : (g.snake.growUp.body.length : Int) > g.settings.winFoodCount
  · exact ⟨_, tickHandler_eats_won g draws p hstep heat hdraw hw,
      by simp [hmade], by simp [hscore], by simp [hmade, hfood]⟩
  · exact ⟨_, tickHandler_eats_not_won g draws p hstep heat hdraw hw,
      by simp [hmade], by simp [hscore], by simp [hmade, hfood]⟩

/-- Concrete state for the C6 witness: length-1 snake at `(5,5)` moving up
with the food directly above it. -/
def gC6 : GameState :=
  { settings := ⟨21, 21, 2, 50⟩
    snake := ⟨[⟨5, 5⟩], .up, .up, 20, 20⟩
    food := ⟨5, 4⟩
    condition := .playing
    score := 0
    timers := [0]
    tickInterval := some 0
    nextTimerId := 1 }

/-- Witness for C6 at `gC6` with draw `(0,0)`. -/
theorem C6_growth_timing_witness :
    ∃ g', Game.tickHandler gC6 [⟨0, 0⟩] = some g' ∧
      g'.snake.body.length = 2 ∧ g'.score = 1 ∧ g'.snake.body.headI = gC6.food :=
  C6_growth_timing gC6 ⟨5, 5⟩ ⟨0, 0⟩ [⟨0, 0⟩] rfl (by decide) (by decide) rfl (by decide)

/-- Concrete eating state for the C1 counterexample: length-1 snake at
`(5,5)` moving up, food on the prospective head cell `(5,4)`. -/
def gC1 : GameState :=
  { settings := ⟨21, 21, 2, 50⟩
    snake := ⟨[⟨5, 5⟩], .up, .up, 20, 20⟩
    food := ⟨5, 4⟩
    condition := .playing
    score := 0
    timers := [0]
    tickInterval := some 0
    nextTimerId := 1 }

/-- C1 counterexample: in the eating tick from `gC1` the just-eaten food
cell `(5,4)` is NOT on the now-grown body, yet no sequence of random draws
can ever make the placement return it — the exclude set is strictly larger
than the grown body, refuting "excluding the grown body and nothing
else". -/
theorem C1_food_placement_counterexample :
    Game.canMakeStep gC1 = true ∧
    Food.isOnPoint gC1.food gC1.snake.getNextStepHeadPoint = true ∧
    (gC1.snake.growUp.body.any fun exPoint =>
      gC1.food.x == exPoint.x && gC1.food.y == exPoint.y) = false ∧
    ¬ ∃ (draws : List Point) (g' : GameState),
        Game.tickHandler gC1 draws = some g' ∧ g'.food = gC1.food := by
  have h1 : Game.canMakeStep gC1 = true := by decide
  have h2 : Food.isOnPoint gC1.food gC1.snake.getNextStepHeadPoint = true := by decide
  refine ⟨h1, h2, by decide, ?_⟩
  rintro ⟨draws, g', ht, hf⟩
  cases hdraw : Game.getRandomFreeCoordinates gC1.food gC1.snake.growUp.body draws with
  | none =>
    rw [Game.tickHandler] at ht
    simp [h1, h2, hdraw] at ht
  | some newFood =>
    have hne := randomFreeLoop_not_excluded (gC1.food :: gC1.snake.growUp.body)
      draws newFood hdraw
    simp only [List.any_cons, Bool.or_eq_false_iff] at hne
    have hfne : (newFood.x == gC1.food.x && newFood.y == gC1.food.y) = false := hne.1
    by_cases hw : (gC1.snake.growUp.body.length : Int) > gC1.settings.winFoodCount
    · rw [tickHandler_eats_won gC1 draws newFood h1 h2 hdraw hw] at ht
      have hg : g' = _ := (Option.some.inj ht).symm
      have h3 : newFood = gC1.food := by rw [hg] at hf; exact hf
      rw [h3] at hfne
      simp at hfne
    · rw [tickHandler_eats_not_won gC1 draws newFood h1 h2 hdraw hw] at ht
      have hg : g' = _ := (Option.some.inj ht).symm
      have h3 : newFood = gC1.food := by rw [hg] at hf; exact hf
      rw [h3] at hfne
      simp at hfne

/-- C1 amended: a cell is returnable by the food placement (under some
random sequence) exactly when it avoids the whole exclude set, which is
the grown body TOGETHER WITH the just-eaten food coordinate. -/
theorem C1_food_placement_amended (g : GameState) (cell : Point) :
    (∃ draws, Game.getRandomFreeCoordinates g.food g.snake.growUp.body draws = some cell) ↔
    ((g.food :: g.snake.growUp.body).any fun exPoint =>
      cell.x == exPoint.x && cell.y == exPoint.y) = false := by
  constructor
  · rintro ⟨draws, h⟩
    exact randomFreeLoop_not_excluded _ draws cell h
  · intro h
    exact ⟨[cell], by simp [Game.getRandomFreeCoordinates, randomFreeLoop, h]⟩

/-! ## Reachability invariants -/

/-- Timer bookkeeping invariant: at most one live timer, every live timer
is the one `tickInterval` refers to, and no timer survives outside the
playing state. -/
def TimerInv (g : GameState) : Prop :=
  g.timers.length ≤ 1 ∧
  (∀ i ∈ g.timers, g.tickInterval = some i) ∧
  (g.condition ≠ GameCondition.playing → g.timers = [])

/-- Cancelling through a handle that covers every live timer kills all. -/
theorem clearInterval_eq_nil (timers : List Nat) (handle : Option Nat)
    (h : ∀ i ∈ timers, handle = some i) : clearInterval timers handle = [] := by
  rw [clearInterval, List.filter_eq_nil_iff]
  intro i hi
  simp [h i hi]

theorem timerInv_stop (g : GameState) (h : TimerInv g) : TimerInv (Game.stop g) := by
  have hnil : clearInterval g.timers g.tickInterval = [] :=
    clearInterval_eq_nil _ _ h.2.1
  exact ⟨by simp [Game.stop, hnil], by simp [Game.stop, hnil],
    fun _ => by simp [Game.stop, hnil]⟩

theorem timerInv_finish (g : GameState) (h : TimerInv g) : TimerInv (Game.finish g) := by
  have hnil : clearInterval g.timers g.tickInterval = [] :=
    clearInterval_eq_nil _ _ h.2.1
  exact ⟨by simp [Game.finish, hnil], by simp [Game.finish, hnil],
    fun _ => by simp [Game.finish, hnil]⟩

/-- `play()` called while stopped (as `playClickHandler` does) starts the
one and only timer. -/
theorem timerInv_play (g : GameState) (h : TimerInv g)
    (hc : g.condition = GameCondition.stopped) : TimerInv (Game.play g) := by
  have ht : g.timers = [] := h.2.2 (by simp [hc])
  refine ⟨by simp [Game.play, ht], ?_, fun hcc => absurd rfl hcc⟩
  intro i hi
  simp only [Game.play, ht, List.mem_singleton] at hi
  simp [Game.play, hi]

/-- Closed form of a successful `reset()`. -/
theorem reset_eq (g : GameState) (draws : List Point) (p : Point)
    (hdraw : Game.getRandomFreeCoordinates g.food
      (Game.getStartSnakeBody g.settings) draws = some p) :
    Game.reset g draws = some
      { settings := g.settings
        snake := Snake.init (Game.getStartSnakeBody g.settings) .up
          (g.settings.colsCount - 1) (g.settings.rowsCount - 1)
        food := p
        condition := .stopped
        score := 0
        timers := clearInterval g.timers g.tickInterval
        tickInterval := g.tickInterval
        nextTimerId := g.nextTimerId } := by
  simp [Game.reset, Game.stop, Snake.init, hdraw]

/-- A successful `reset()` always has the closed form of `reset_eq`. -/
theorem reset_some_elim (g g' : GameState) (draws : List Point)
    (hr : Game.reset g draws = some g') :
    ∃ p, Game.getRandomFreeCoordinates g.food
        (Game.getStartSnakeBody g.settings) draws = some p ∧
      g' = { settings := g.settings
             snake := Snake.init (Game.getStartSnakeBody g.settings) .up
               (g.settings.colsCount - 1) (g.settings.rowsCount - 1)
             food := p
             condition := .stopped
             score := 0
             timers := clearInterval g.timers g.tickInterval
             tickInterval := g.tickInterval
             nextTimerId := g.nextTimerId } := by
  cases hdraw : Game.getRandomFreeCoordinates g.food
      (Game.getStartSnakeBody g.settings) draws with
  | none =>
    rw [Game.reset] at hr
    simp only [Game.stop, Snake.init] at hr
    rw [hdraw] at hr
    cases hr
  | some p =>
    rw [reset_eq g draws p hdraw] at hr
    exact ⟨p, rfl, (Option.some.inj hr).symm⟩

theorem timerInv_reset (g g' : GameState) (draws : List Point) (h : TimerInv g)
    (hr : Game.reset g draws = some g') : TimerInv g' := by
  obtain ⟨p, -, rfl⟩ := reset_some_elim g g' draws hr
  have hnil : clearInterval g.timers g.tickInterval = [] :=
    clearInterval_eq_nil _ _ h.2.1
  exact ⟨by simp [hnil], by simp [hnil], fun _ => by simp [hnil]⟩

theorem timerInv_tick (g g' : GameState) (draws : List Point) (h : TimerInv g)
    (ht : Game.tickHandler g draws = some g') : TimerInv g' := by
  have hnil : clearInterval g.timers g.tickInterval = [] :=
    clearInterval_eq_nil _ _ h.2.1
  cases hstep : Game.canMakeStep g with
  | false =>
    rw [tickHandler_eq_of_collision g draws hstep] at ht
    cases ht
    exact timerInv_finish g h
  | true =>
    cases heat : Food.isOnPoint g.food g.snake.getNextStepHeadPoint with
    | false =>
      rw [tickHandler_eq_of_no_food g draws hstep heat] at ht
      cases ht
      exact h
    | true =>
      cases hdraw : Game.getRandomFreeCoordinates g.food g.snake.growUp.body draws with
      | none =>
        rw [Game.tickHandler] at ht
        simp [hstep, heat, hdraw] at ht
      | some nf =>
        by_cases hw : (g.snake.growUp.body.length : Int) > g.settings.winFoodCount
        · rw [tickHandler_eats_won g draws nf hstep heat hdraw hw] at ht
          cases ht
          exact ⟨by simp [hnil], by simp [hnil], fun _ => by simp [hnil]⟩
        · rw [tickHandler_eats_not_won g draws nf hstep heat hdraw hw] at ht
          cases ht
          exact h

theorem timerInv_playClick (g : GameState) (h : TimerInv g) :
    TimerInv (Game.playClickHandler g) := by
  rw [Game.playClickHandler]
  by_cases h1 : g.condition = GameCondition.playing
  · rw [if_pos h1]
    exact timerInv_stop g h
  · rw [if_neg h1]
    by_cases h2 : g.condition = GameCondition.stopped
    · rw [if_pos h2]
      exact timerInv_play g h h2
    · rw [if_neg h2]
      exact h

/-- `keyDownHandler` can only change the snake's direction fields. -/
theorem keyDownHandler_frame (g : GameState) (code : String) :
    (Game.keyDownHandler g code).timers = g.timers ∧
    (Game.keyDownHandler g code).tickInterval = g.tickInterval ∧
    (Game.keyDownHandler g code).condition = g.condition ∧
    (Game.keyDownHandler g code).score = g.score ∧
    (Game.keyDownHandler g code).snake.body = g.snake.body ∧
    (Game.keyDownHandler g code).settings = g.settings := by
  rw [Game.keyDownHandler]
  by_cases h1 : g.condition = GameCondition.playing
  · rw [if_pos h1]
    cases hd : Game.getDirectionByCode code with
    | none => simp [hd]
    | some d =>
      simp only [hd]
      by_cases h2 : Game.canSetDirection (some d) g.snake.lastStepDirection = true
      · simp [h2, Snake.setDirection]
      · simp [h2]
  · rw [if_neg h1]
    exact ⟨rfl, rfl, rfl, rfl, rfl, rfl⟩

theorem timerInv_keyDown (g : GameState) (code : String) (h : TimerInv g) :
    TimerInv (Game.keyDownHandler g code) := by
  obtain ⟨h1, h2, h3, -, -, -⟩ := keyDownHandler_frame g code
  unfold TimerInv
  rw [h1, h2, h3]
  exact h

/-- The timer invariant holds in every reachable state. -/
theorem reachable_timerInv (g : GameState) (h : Reachable g) : TimerInv g := by
  induction h with
  | init us f0 draws g hg =>
    rw [Game.init] at hg
    by_cases hv : (Config.validate us).isValid = true
    · rw [if_pos hv] at hg
      exact timerInv_reset _ g draws ⟨by simp, by simp, fun _ => rfl⟩ hg
    · rw [if_neg hv] at hg
      cases hg
  | step g g' hr hs ih =>
    cases hs with
    | tick draws hne ht => exact timerInv_tick g g' draws ih ht
    | playClick => exact timerInv_playClick g ih
    | newGameClick draws hrr => exact timerInv_reset g g' draws ih hrr
    | keyDown code => exact timerInv_keyDown g code ih

/-- C4: in every reachable state at most one tick timer is live; `stop()`
and `finish()` synchronously cancel it; `stop()` twice in a row is a
no-op beyond the first call and leaves zero timers; `play()` (reached only
through the play-button handler) never starts a second timer while one is
live, since a stopped state has no timer and the handler's result again has
at most one. -/
theorem C4_single_timer (g : GameState) (h : Reachable g) :
    g.timers.length ≤ 1 ∧
    (Game.stop g).timers = [] ∧
    (Game.finish g).timers = [] ∧
    Game.stop (Game.stop g) = Game.stop g ∧
    (Game.stop (Game.stop g)).timers = [] ∧
    (g.condition = GameCondition.stopped → g.timers = []) ∧
    (Game.playClickHandler g).timers.length ≤ 1 := by
  have hi := reachable_timerInv g h
  have hnil : clearInterval g.timers g.tickInterval = [] :=
    clearInterval_eq_nil _ _ hi.2.1
  refine ⟨hi.1, by simp [Game.stop, hnil], by simp [Game.finish, hnil], ?_, ?_,
    fun hc => hi.2.2 (by simp [hc]), (timerInv_playClick g hi).1⟩
  · simp only [Game.stop, hnil]
    simp [clearInterval]
  · simp [Game.stop, hnil, clearInterval]
    exact hi.2.1

/-- The settings used by the reachable witness state. -/
def settings0 : Settings := ⟨21, 21, 2, 50⟩

/-- The state right after `game.init(settings0)` with first draw `(0,0)`. -/
def g0 : GameState :=
  { settings := settings0
    snake := ⟨[⟨10, 10⟩], .up, .up, 20, 20⟩
    food := ⟨0, 0⟩
    condition := .stopped
    score := 0
    timers := []
    tickInterval := none
    nextTimerId := 0 }

/-- `g0` is reachable: it is the result of `game.init`. -/
theorem g0_reachable : Reachable g0 :=
  Reachable.init settings0 ⟨-1, -1⟩ [⟨0, 0⟩] g0 (by decide)

/-- Witness for C4 at the reachable state `g0`. -/
theorem C4_single_timer_witness :
    g0.timers.length ≤ 1 ∧
    (Game.stop g0).timers = [] ∧
    (Game.finish g0).timers = [] ∧
    Game.stop (Game.stop g0) = Game.stop g0 ∧
    (Game.stop (Game.stop g0)).timers = [] ∧
    (g0.condition = GameCondition.stopped → g0.timers = []) ∧
    (Game.playClickHandler g0).timers.length ≤ 1 :=
  C4_single_timer g0 g0_reachable

/-- Score invariant: the score always lags the body length by exactly 1
(which also forces the body to be nonempty). -/
def ScoreInv (g : GameState) : Prop :=
  g.score + 1 = g.snake.body.length

/-- `makeStep` conserves the body length (unshift one, pop one). -/
theorem makeStep_length (s : Snake) : s.makeStep.body.length = s.body.length := by
  simp [Snake.makeStep]

/-- `growUp` adds exactly one segment. -/
theorem growUp_length (s : Snake) : s.growUp.body.length = s.body.length + 1 := by
  simp [Snake.growUp]

theorem scoreInv_reset (g g' : GameState) (draws : List Point)
    (hr : Game.reset g draws = some g') : ScoreInv g' := by
  obtain ⟨p, -, rfl⟩ := reset_some_elim g g' draws hr
  simp [ScoreInv, Snake.init, Game.getStartSnakeBody]

theorem scoreInv_tick (g g' : GameState) (draws : List Point) (h : ScoreInv g)
    (ht : Game.tickHandler g draws = some g') : ScoreInv g' := by
  cases hstep : Game.canMakeStep g with
  | false =>
    rw [tickHandler_eq_of_collision g draws hstep] at ht
    cases ht
    exact h
  | true =>
    cases heat : Food.isOnPoint g.food g.snake.getNextStepHeadPoint with
    | false =>
      rw [tickHandler_eq_of_no_food g draws hstep heat] at ht
      cases ht
      unfold ScoreInv
      rw [makeStep_length]
      exact h
    | true =>
      cases hdraw : Game.getRandomFreeCoordinates g.food g.snake.growUp.body draws with
      | none =>
        rw [Game.tickHandler] at ht
        simp [hstep, heat, hdraw] at ht
      | some nf =>
        by_cases hw : (g.snake.growUp.body.length : Int) > g.settings.winFoodCount
        · rw [tickHandler_eats_won g draws nf hstep heat hdraw hw] at ht
          cases ht
          show g.score + 1 + 1 = g.snake.growUp.makeStep.body.length
          rw [makeStep_length, growUp_length]
          rw [ScoreInv] at h
          omega
        · rw [tickHandler_eats_not_won g draws nf hstep heat hdraw hw] at ht
          cases ht
          show g.score + 1 + 1 = g.snake.growUp.makeStep.body.length
          rw [makeStep_length, growUp_length]
          rw [ScoreInv] at h
          omega

theorem scoreInv_playClick (g : GameState) (h : ScoreInv g) :
    ScoreInv (Game.playClickHandler g) := by
  rw [Game.playClickHandler]
  by_cases h1 : g.condition = GameCondition.playing
  · rw [if_pos h1]; exact h
  · rw [if_neg h1]
    by_cases h2 : g.condition = GameCondition.stopped
    · rw [if_pos h2]; exact h
    · rw [if_neg h2]; exact h

theorem scoreInv_keyDown (g : GameState) (code : String) (h : ScoreInv g) :
    ScoreInv (Game.keyDownHandler g code) := by
  obtain ⟨-, -, -, h4, h5, -⟩ := keyDownHandler_frame g code
  unfold ScoreInv
  rw [h4, h5]
  exact h

/-- The score invariant holds in every reachable state. -/
theorem reachable_scoreInv (g : GameState) (h : Reachable g) : ScoreInv g := by
  induction h with
  | init us f0 draws g hg =>
    rw [Game.init] at hg
    by_cases hv : (Config.validate us).isValid = true
    · rw [if_pos hv] at hg
      exact scoreInv_reset _ g draws hg
    · rw [if_neg hv] at hg
      cases hg
  | step g g' hr hs ih =>
    cases hs with
    | tick draws hne ht => exact scoreInv_tick g g' draws ih ht
    | playClick => exact scoreInv_playClick g ih
    | newGameClick draws hrr => exact scoreInv_reset g g' draws hrr
    | keyDown code => exact scoreInv_keyDown g code ih

/-- C10: in every reachable state the score equals body length minus one;
`reset()` establishes it with score 0 and length 1, and an eating tick
raises both the score and the length by exactly 1. -/
theorem C10_score_is_length_minus_one (g : GameState) (h : Reachable g) :
    g.score + 1 = g.snake.body.length ∧
    (∀ (pre g0 : GameState) (draws : List Point), Game.reset pre draws = some g0 →
      g0.score = 0 ∧ g0.snake.body.length = 1) ∧
    (∀ (draws : List Point) (g' : GameState),
      Game.canMakeStep g = true →
      Food.isOnPoint g.food g.snake.getNextStepHeadPoint = true →
      Game.tickHandler g draws = some g' →
      g'.score = g.score + 1 ∧ g'.snake.body.length = g.snake.body.length + 1) := by
  refine ⟨reachable_scoreInv g h, ?_, ?_⟩
  · intro pre gr draws hr
    obtain ⟨p, -, rfl⟩ := reset_some_elim pre gr draws hr
    exact ⟨rfl, by simp [Snake.init, Game.getStartSnakeBody]⟩
  · intro draws g' hstep heat ht
    cases hdraw : Game.getRandomFreeCoordinates g.food g.snake.growUp.body draws with
    | none =>
      rw [Game.tickHandler] at ht
      simp [hstep, heat, hdraw] at ht
    | some nf =>
      by_cases hw : (g.snake.growUp.body.length : Int) > g.settings.winFoodCount
      · rw [tickHandler_eats_won g draws nf hstep heat hdraw hw] at ht
        cases ht
        exact ⟨rfl, by rw [makeStep_length, growUp_length]⟩
      · rw [tickHandler_eats_not_won g draws nf hstep heat hdraw hw] at ht
        cases ht
        exact ⟨rfl, by rw [makeStep_length, growUp_length]⟩

/-- Witness for C10 at the reachable state `g0`: score 0, body length 1. -/
theorem C10_score_is_length_minus_one_witness :
    g0.score + 1 = g0.snake.body.length :=
  (C10_score_is_length_minus_one g0 g0_reachable).1
